import Mathlib

/-!
Shallow embedding of the fake-review detector repository:
app/services/features.py (FeatureExtractor), app/services/detector.py
(FakeReviewDetector), app/models/review.py (pydantic schemas) and
app/api/routes.py (batch endpoint summary).

Modelling conventions:
- Python floats are modelled as rationals.
- Python str is modelled as Lean String; text analysis works on List Char.
- The optional NLTK capabilities held by FeatureExtractor.__init__
  (self.sia, the word/sentence tokenizers, self.stop_words) are an explicit
  environment record NltkEnv.  sia = none models the state after the lexicon
  failed to load; some f models a working SentimentIntensityAnalyzer, whose
  scoring function f is opaque to the detector.
- Python exceptions are modelled with Except String.
- datetime.now() is modelled by an explicit clock parameter now, and a
  datetime value by the projections the code reads (epochDays, hour, weekday).
- Char.isAlphanum, Char.isUpper, Char.isWhitespace, Char.toLower are the
  ASCII approximations of the corresponding Python unicode-aware functions.
-/

/-- Sentiment record: the dict returned by polarity_scores and by
FeatureExtractor._simple_sentiment, with keys compound, pos, neg, neu. -/
structure Sentiment where
  compound : ℚ
  pos : ℚ
  neg : ℚ
  neu : ℚ
deriving DecidableEq

/-- Python str.lower on a character list. -/
def lowerList (cs : List Char) : List Char := cs.map Char.toLower

/-- Python substring containment test, w in cs. -/
def containsSub (w cs : List Char) : Bool :=
  (List.range (cs.length + 1)).any (fun i => w.isPrefixOf (cs.drop i))

/-- Helper for splitWs; acc holds the current token reversed. -/
def splitWsAux : List Char → List Char → List (List Char)
  | [], acc => if acc.isEmpty then [] else [acc.reverse]
  | c :: rest, acc =>
    if c.isWhitespace then
      if acc.isEmpty then splitWsAux rest [] else acc.reverse :: splitWsAux rest []
    else splitWsAux rest (c :: acc)

/-- Python str.split() with no argument: maximal runs of non-whitespace,
no empty tokens, empty list for all-whitespace input. -/
def splitWs (cs : List Char) : List (List Char) := splitWsAux cs []

/-- Python str.split(sep) for a one-character separator: splits at every
occurrence, keeping empty pieces, so the result has one more element than
the number of separators. -/
def splitSep (sep : Char) : List Char → List (List Char)
  | [] => [[]]
  | c :: rest =>
    let r := splitSep sep rest
    if c = sep then [] :: r
    else
      match r with
      | [] => [[c]]
      | w :: ws => (c :: w) :: ws

/-- Positive word list of FeatureExtractor._simple_sentiment (line 199). -/
def positive_words : List (List Char) :=
  ["good".data, "great".data, "excellent".data, "amazing".data, "wonderful".data,
   "fantastic".data, "perfect".data, "love".data, "best".data, "awesome".data]

/-- Negative word list of FeatureExtractor._simple_sentiment (line 200). -/
def negative_words : List (List Char) :=
  ["bad".data, "terrible".data, "awful".data, "horrible".data, "worst".data,
   "hate".data, "disappointing".data, "poor".data, "useless".data]

/-- Count of positive list words contained in the lowered text (line 202). -/
def pos_word_count (text_lower : List Char) : Nat :=
  positive_words.countP (fun w => containsSub w text_lower)

/-- Count of negative list words contained in the lowered text (line 203). -/
def neg_word_count (text_lower : List Char) : Nat :=
  negative_words.countP (fun w => containsSub w text_lower)

/-- FeatureExtractor._simple_sentiment (features.py lines 194-218): the
deterministic fallback sentiment scorer. -/
def simple_sentiment (text : String) : Sentiment :=
  let text_lower := lowerList text.data
  let pos_count := pos_word_count text_lower
  let neg_count := neg_word_count text_lower
  let total := pos_count + neg_count
  if total = 0 then ⟨0, 0, 0, 1⟩
  else
    let wc : ℚ := ((splitWs text_lower).length : ℚ)
    let pos_r : ℚ := (pos_count : ℚ) / wc
    let neg_r : ℚ := (neg_count : ℚ) / wc
    let compound : ℚ := ((pos_count : ℚ) - (neg_count : ℚ)) / ((max total 1 : ℕ) : ℚ)
    ⟨max (-1) (min 1 compound), min 1 (pos_r * 3), min 1 (neg_r * 3),
     max 0 (1 - pos_r * 3 - neg_r * 3)⟩

/-- Optional NLTK capabilities of FeatureExtractor.__init__ (lines 39-50).
sia models self.sia; tok bundles word_tokenize and sent_tokenize (none when
NLTK is unavailable or tokenization raises, in which case the code falls
back to whitespace and period splitting); stop_words models self.stop_words. -/
structure NltkEnv where
  sia : Option (String → Sentiment)
  tok : Option ((List Char → List (List Char)) × (List Char → List (List Char)))
  stop_words : List (List Char)

/-- Word tokens used by _extract_text_features and _count_repeated_words:
word_tokenize(text.lower()) on the primary path, text.lower().split() on the
fallback path (features.py lines 91-101, 180-186). -/
def textWords (env : NltkEnv) (text : String) : List (List Char) :=
  match env.tok with
  | some t => t.1 (lowerList text.data)
  | none => splitWs (lowerList text.data)

/-- Sentence tokens: sent_tokenize(text) on the primary path, the split of
the original text on the period character on the fallback path. -/
def textSentences (env : NltkEnv) (text : String) : List (List Char) :=
  match env.tok with
  | some t => t.2 text.data
  | none => splitSep '.' text.data

/-- Count of non-overlapping maximal runs of one repeated character of
length at least 3, the run character not being a newline: the length of
re.findall of a dot-captured backreference repeated twice or more
(features.py line 112).  The acc argument carries the current run. -/
def repeatedCharsAux : List Char → Option (Char × Nat) → Nat
  | [], none => 0
  | [], some (c, n) => if 3 ≤ n ∧ c ≠ '\n' then 1 else 0
  | c :: rest, none => repeatedCharsAux rest (some (c, 1))
  | c :: rest, some (d, n) =>
    if c = d then repeatedCharsAux rest (some (d, n + 1))
    else (if 3 ≤ n ∧ d ≠ '\n' then 1 else 0) + repeatedCharsAux rest (some (c, 1))

/-- Repeated character runs feature, see repeatedCharsAux. -/
def repeated_chars_count (cs : List Char) : Nat := repeatedCharsAux cs none

/-- FeatureExtractor._count_repeated_words (lines 178-192): number of
distinct tokens occurring more than once. -/
def count_repeated_words (env : NltkEnv) (text : String) : Nat :=
  let words := textWords env text
  (words.dedup.filter (fun w => 1 < words.count w)).length

/-- Text features record built by _extract_text_features (lines 88-115).
capitalization_frac and stopword_frac model the source keys
capitalization_ratio and stopword_ratio. -/
structure TextFeatures where
  text_length : Nat
  word_count : Nat
  sentence_count : Nat
  avg_word_length : ℚ
  avg_sentence_length : ℚ
  capitalization_frac : ℚ
  exclamation_count : Nat
  question_count : Nat
  repeated_chars : Nat
  repeated_words : Nat
  stopword_frac : ℚ
deriving DecidableEq

/-- FeatureExtractor._extract_text_features (features.py lines 88-115). -/
def extract_text_features (env : NltkEnv) (text : String) : TextFeatures :=
  let cs := text.data
  let words := textWords env text
  let sentences := textSentences env text
  { text_length := cs.length
    word_count := words.length
    sentence_count := sentences.length
    avg_word_length :=
      if words = [] then 0 else ((words.map List.length).sum : ℚ) / (words.length : ℚ)
    avg_sentence_length :=
      if sentences = [] then 0 else (words.length : ℚ) / (sentences.length : ℚ)
    capitalization_frac :=
      if cs = [] then 0 else ((cs.countP Char.isUpper : ℚ) / (cs.length : ℚ))
    exclamation_count := cs.count '!'
    question_count := cs.count '?'
    repeated_chars := repeated_chars_count cs
    repeated_words := count_repeated_words env text
    stopword_frac :=
      if words ≠ [] ∧ env.stop_words ≠ [] then
        ((words.countP (fun w => env.stop_words.contains w)) : ℚ) / (words.length : ℚ)
      else 0 }

/-- Sentiment features record built by _extract_sentiment_features. -/
structure SentFeatures where
  sentiment_compound : ℚ
  sentiment_positive : ℚ
  sentiment_negative : ℚ
  sentiment_neutral : ℚ
  is_extreme_sentiment : Bool
deriving DecidableEq

/-- FeatureExtractor._extract_sentiment_features (lines 117-138): uses the
analyzer when present, else the deterministic fallback. -/
def extract_sentiment_features (env : NltkEnv) (text : String) : SentFeatures :=
  let s :=
    match env.sia with
    | some f => f text
    | none => simple_sentiment text
  { sentiment_compound := s.compound
    sentiment_positive := s.pos
    sentiment_negative := s.neg
    sentiment_neutral := s.neu
    is_extreme_sentiment := decide (s.compound > 0.8) || decide (s.compound < -0.8) }

/-- Rating features record built by _extract_rating_features. -/
structure RatingFeatures where
  rating : Nat
  is_extreme_rating : Bool
  sentiment_rating_mismatch : ℚ
  high_mismatch : Bool
deriving DecidableEq

/-- FeatureExtractor._extract_rating_features (features.py lines 140-153).
The source calls self.sia.polarity_scores(text) with no None guard and no
try/except, so when the lexicon is unavailable (sia = None) the call raises
AttributeError, modelled here as the error branch. -/
def extract_rating_features (env : NltkEnv) (text : String) (rating : Nat) :
    Except String RatingFeatures :=
  match env.sia with
  | none => .error "AttributeError: NoneType object has no attribute polarity_scores"
  | some f =>
    let s := f text
    let expected_sentiment : ℚ := ((rating : ℚ) - 3) / 2
    let mismatch : ℚ := |expected_sentiment - s.compound|
    .ok { rating := rating
          is_extreme_rating := decide (rating = 1) || decide (rating = 5)
          sentiment_rating_mismatch := mismatch
          high_mismatch := decide (mismatch > 0.7) }

/-- Reviewer features record built by _extract_reviewer_features. -/
structure ReviewerFeatures where
  reviewer_total_reviews : Int
  reviewer_account_age_days : Int
  is_new_reviewer : Bool
  is_very_active : Bool
  reviews_per_day : ℚ
deriving DecidableEq

/-- FeatureExtractor._extract_reviewer_features (lines 155-163). -/
def extract_reviewer_features (total_reviews account_age_days : Int) : ReviewerFeatures :=
  { reviewer_total_reviews := total_reviews
    reviewer_account_age_days := account_age_days
    is_new_reviewer := decide (account_age_days < 30)
    is_very_active := decide (total_reviews > 50)
    reviews_per_day := (total_reviews : ℚ) / ((max account_age_days 1 : Int) : ℚ) }

/-- Temporal features record built by _extract_temporal_features. -/
structure TemporalFeatures where
  days_since_review : Int
  is_recent_review : Bool
  review_hour : Nat
  is_business_hours : Bool
  is_weekend : Bool
deriving DecidableEq

/-- Datetime value modelled by the projections the code reads: an absolute
day number for the subtraction against now, the hour and the weekday. -/
structure PyDateTime where
  epochDays : Int
  hour : Nat
  weekday : Nat
deriving DecidableEq

/-- FeatureExtractor._extract_temporal_features (lines 165-176); now is the
day number of datetime.now(). -/
def extract_temporal_features (now : Int) (d : PyDateTime) : TemporalFeatures :=
  let days_since_review := now - d.epochDays
  { days_since_review := days_since_review
    is_recent_review := decide (days_since_review < 7)
    review_hour := d.hour
    is_business_hours := decide (9 ≤ d.hour ∧ d.hour ≤ 17)
    is_weekend := decide (5 ≤ d.weekday) }

/-- Flat feature mapping produced by extract_all_features: the union of the
five partial dicts, with the temporal entries present only when a review
date was supplied (features.py lines 60-86). -/
structure Features where
  text_length : Nat
  word_count : Nat
  sentence_count : Nat
  avg_word_length : ℚ
  avg_sentence_length : ℚ
  capitalization_frac : ℚ
  exclamation_count : Nat
  question_count : Nat
  repeated_chars : Nat
  repeated_words : Nat
  stopword_frac : ℚ
  sentiment_compound : ℚ
  sentiment_positive : ℚ
  sentiment_negative : ℚ
  sentiment_neutral : ℚ
  is_extreme_sentiment : Bool
  rating : Nat
  is_extreme_rating : Bool
  sentiment_rating_mismatch : ℚ
  high_mismatch : Bool
  reviewer_total_reviews : Int
  reviewer_account_age_days : Int
  is_new_reviewer : Bool
  is_very_active : Bool
  reviews_per_day : ℚ
  temporal : Option TemporalFeatures
deriving DecidableEq

/-- FeatureExtractor.extract_all_features (features.py lines 60-86): builds
the flat feature dict; the AttributeError raised inside
_extract_rating_features when sia is None propagates out. -/
def extract_all_features (env : NltkEnv) (now : Int) (review_text : String) (rating : Nat)
    (reviewer_total_reviews reviewer_account_age_days : Int)
    (review_date : Option PyDateTime) : Except String Features :=
  match extract_rating_features env review_text rating with
  | .error e => .error e
  | .ok rf =>
    let tf := extract_text_features env review_text
    let sf := extract_sentiment_features env review_text
    let vf := extract_reviewer_features reviewer_total_reviews reviewer_account_age_days
    .ok { text_length := tf.text_length
          word_count := tf.word_count
          sentence_count := tf.sentence_count
          avg_word_length := tf.avg_word_length
          avg_sentence_length := tf.avg_sentence_length
          capitalization_frac := tf.capitalization_frac
          exclamation_count := tf.exclamation_count
          question_count := tf.question_count
          repeated_chars := tf.repeated_chars
          repeated_words := tf.repeated_words
          stopword_frac := tf.stopword_frac
          sentiment_compound := sf.sentiment_compound
          sentiment_positive := sf.sentiment_positive
          sentiment_negative := sf.sentiment_negative
          sentiment_neutral := sf.sentiment_neutral
          is_extreme_sentiment := sf.is_extreme_sentiment
          rating := rf.rating
          is_extreme_rating := rf.is_extreme_rating
          sentiment_rating_mismatch := rf.sentiment_rating_mismatch
          high_mismatch := rf.high_mismatch
          reviewer_total_reviews := vf.reviewer_total_reviews
          reviewer_account_age_days := vf.reviewer_account_age_days
          is_new_reviewer := vf.is_new_reviewer
          is_very_active := vf.is_very_active
          reviews_per_day := vf.reviews_per_day
          temporal := review_date.map (extract_temporal_features now) }

/-- Python regex word character class (ASCII approximation). -/
def wordChar (c : Char) : Bool := c.isAlphanum || c = '_'

/-- Whether position i of cs holds a word character; out of range is false. -/
def wordCharAt (cs : List Char) (i : Nat) : Bool :=
  match cs.get? i with
  | some c => wordChar c
  | none => false

/-- Regex word boundary at gap position p of cs, for 0 ≤ p ≤ length:
the word-character status changes across the gap, with the positions
outside the string counting as non-word. -/
def boundaryAt (cs : List Char) (p : Nat) : Bool :=
  (if p = 0 then false else wordCharAt cs (p - 1)) != wordCharAt cs p

/-- Start positions where the literal phrase w occurs in cs with a word
boundary on both sides. -/
def boundary_occurrences (w cs : List Char) : List Nat :=
  (List.range (cs.length + 1)).filter
    (fun i => w.isPrefixOf (cs.drop i) && boundaryAt cs i && boundaryAt cs (i + w.length))

/-- Length of re.findall for a boundary-delimited alternation of literal
words: matches of distinct listed words never overlap, so the count is the
sum of the per-word boundary occurrence counts. -/
def word_match_count (ws : List (List Char)) (cs : List Char) : Nat :=
  (ws.map (fun w => (boundary_occurrences w cs).length)).sum

/-- Whether the slice of cs from gap e to gap s is free of newlines: the
dot of a Python regex, outside DOTALL mode, does not match a newline. -/
def no_newline_between (cs : List Char) (e s : Nat) : Bool :=
  ((cs.drop e).take (s - e)).all (fun c => c != '\n')

/-- re.search for a boundary-delimited alternation of literal phrases. -/
def alt_match (ws : List (List Char)) (cs : List Char) : Bool :=
  ws.any (fun w => !(boundary_occurrences w cs).isEmpty)

/-- re.search for a pattern of two boundary-delimited alternations joined by
a dot-star: some first-group occurrence ends no later than some second-group
occurrence starts, with no newline between them. -/
def seq_match (ws1 ws2 : List (List Char)) (cs : List Char) : Bool :=
  (ws1.map (fun w => (boundary_occurrences w cs).map (fun i => i + w.length))).flatten.any
    (fun e =>
      (ws2.map (fun w => boundary_occurrences w cs)).flatten.any
        (fun s => decide (e ≤ s) && no_newline_between cs e s))

/-- Alternation of the first fake pattern (features.py line 54). -/
def superlative_words : List (List Char) :=
  ["amazing".data, "incredible".data, "outstanding".data, "perfect".data, "excellent".data]

/-- Alternation of the second fake pattern (line 55). -/
def promo_phrases : List (List Char) :=
  ["highly recommend".data, "must buy".data, "best purchase".data, "love it so much".data]

/-- Alternation of the third fake pattern (line 56); the optional plural s
of the regex is expanded into explicit singular and plural literals. -/
def five_star_phrases : List (List Char) :=
  ["five star".data, "five stars".data, "5 star".data, "5 stars".data, "⭐⭐⭐⭐⭐".data]

/-- First alternation of the fourth fake pattern (line 57). -/
def shipping_phrases : List (List Char) :=
  ["fast shipping".data, "quick delivery".data]

/-- Second alternation of the fourth fake pattern (line 57). -/
def quality_phrases : List (List Char) :=
  ["great quality".data, "excellent product".data]

/-- Word alternation of the additional positive-words check (line 230). -/
def praise_words : List (List Char) :=
  ["great".data, "good".data, "nice".data, "awesome".data, "amazing".data]

/-- FeatureExtractor.check_fake_patterns (features.py lines 220-242):
positional tags for the four compiled patterns in order, then the four
additional independent checks. -/
def check_fake_patterns (text : String) : List String :=
  let text_lower := lowerList text.data
  ((if seq_match superlative_words superlative_words text_lower then ["fake_pattern_1"] else []) ++
   (if alt_match promo_phrases text_lower then ["fake_pattern_2"] else []) ++
   (if seq_match five_star_phrases five_star_phrases text_lower then ["fake_pattern_3"] else []) ++
   (if seq_match shipping_phrases quality_phrases text_lower then ["fake_pattern_4"] else [])) ++
  (if 3 < word_match_count praise_words text_lower then ["excessive_positive_words"] else []) ++
  (if 3 < text.data.count '!' then ["excessive_exclamation"] else []) ++
  (if text.data.length < 20 then ["too_short"] else []) ++
  (if 2000 < text.data.length then ["too_long"] else [])

/-- ReviewInput schema (app/models/review.py lines 5-13). -/
structure ReviewInput where
  text : String
  rating : Nat
  reviewer_id : Option String
  product_id : Option String
  review_date : Option PyDateTime
  reviewer_total_reviews : Option Int
  reviewer_account_age_days : Option Int
deriving DecidableEq

/-- DetectionResult schema (app/models/review.py lines 15-21). -/
structure DetectionResult where
  is_fake : Bool
  confidence_score : ℚ
  fake_probability : ℚ
  flags : List String
  explanation : String
deriving DecidableEq

/-- Scoring weight text_quality of FakeReviewDetector.__init__ (line 16). -/
def weight_text_quality : ℚ := 0.25

/-- Scoring weight sentiment_analysis (line 17). -/
def weight_sentiment_analysis : ℚ := 0.20

/-- Scoring weight reviewer_behavior (line 18). -/
def weight_reviewer_behavior : ℚ := 0.25

/-- Scoring weight pattern_matching (line 19). -/
def weight_pattern_matching : ℚ := 0.30

/-- FakeReviewDetector._calculate_text_quality_score (detector.py 72-102). -/
def calculate_text_quality_score (features : Features) : ℚ :=
  min ((if features.text_length < 20 then 0.3
        else if features.text_length > 2000 then 0.2 else 0) +
       (if features.repeated_words > 3 then 0.2 else 0) +
       (if features.repeated_chars > 0 then 0.1 else 0) +
       (if features.capitalization_frac > 0.15 then 0.2 else 0) +
       (if features.exclamation_count > 3 then 0.15 else 0) +
       (if features.avg_sentence_length < 3 then 0.1
        else if features.avg_sentence_length > 30 then 0.1 else 0)) 1

/-- FakeReviewDetector._calculate_sentiment_score (detector.py 104-120). -/
def calculate_sentiment_score (features : Features) : ℚ :=
  min ((if features.is_extreme_sentiment then 0.4 else 0) +
       (if features.high_mismatch then 0.3 else 0) +
       (if features.is_extreme_rating then 0.2 else 0)) 1

/-- FakeReviewDetector._calculate_reviewer_behavior_score (122-142). -/
def calculate_reviewer_behavior_score (features : Features) : ℚ :=
  min ((if features.is_new_reviewer then 0.3 else 0) +
       (if features.reviews_per_day > 2 then 0.4
        else if features.reviews_per_day > 1 then 0.2 else 0) +
       (if features.reviewer_total_reviews = 1 then 0.2
        else if features.reviewer_total_reviews < 5 then 0.1 else 0)) 1

/-- FakeReviewDetector._calculate_pattern_score (detector.py 144-155); the
features argument of the source is unused there as well. -/
def calculate_pattern_score (pattern_flags : List String) (_features : Features) : ℚ :=
  min (((pattern_flags.length : ℚ) * 0.2) +
       (if pattern_flags.contains "excessive_positive_words" then 0.1 else 0) +
       (if pattern_flags.contains "excessive_exclamation" then 0.1 else 0)) 1

/-- FakeReviewDetector._get_behavior_flags (detector.py lines 157-179):
six conditional tags appended in this fixed order. -/
def get_behavior_flags (features : Features) : List String :=
  (if features.is_new_reviewer then ["new_account"] else []) ++
  (if features.reviews_per_day > 2 then ["high_review_frequency"] else []) ++
  (if features.high_mismatch then ["sentiment_rating_mismatch"] else []) ++
  (if features.is_extreme_sentiment then ["extreme_sentiment"] else []) ++
  (if features.capitalization_frac > 0.15 then ["excessive_caps"] else []) ++
  (if features.text_length < 20 then ["very_short_text"] else [])

/-- FakeReviewDetector._generate_explanation (detector.py lines 181-213). -/
def generate_explanation (fake_prob text_score sentiment_score reviewer_score pattern_score : ℚ)
    (flags : List String) : String :=
  let base :=
    if fake_prob < 0.3 then "This review appears authentic"
    else if fake_prob < 0.6 then "This review shows some suspicious indicators"
    else "This review appears likely to be fake"
  let reasons :=
    (if text_score > 0.4 then ["poor text quality"] else []) ++
    (if sentiment_score > 0.4 then ["suspicious sentiment patterns"] else []) ++
    (if reviewer_score > 0.4 then ["questionable reviewer behavior"] else []) ++
    (if pattern_score > 0.4 then ["matches known fake review patterns"] else [])
  let explanation :=
    if reasons ≠ [] then base ++ " due to: " ++ String.intercalate ", " reasons ++ "."
    else base ++ "."
  if flags ≠ [] then
    explanation ++ " Key indicators: " ++ String.intercalate ", " (flags.take 3) ++ "."
  else explanation

/-- Body of FakeReviewDetector.analyze_review after feature extraction has
succeeded (detector.py lines 34-66); split out because the Python exception
raised during extraction surfaces before this code runs. -/
def analyze_with_features (review : ReviewInput) (features : Features) : DetectionResult :=
  let pattern_flags := check_fake_patterns review.text
  let text_score := calculate_text_quality_score features
  let sentiment_score := calculate_sentiment_score features
  let reviewer_score := calculate_reviewer_behavior_score features
  let pattern_score := calculate_pattern_score pattern_flags features
  let fake_probability :=
    weight_text_quality * text_score + weight_sentiment_analysis * sentiment_score +
    weight_reviewer_behavior * reviewer_score + weight_pattern_matching * pattern_score
  let all_flags := pattern_flags ++ get_behavior_flags features
  { is_fake := decide (fake_probability > 0.6)
    confidence_score := fake_probability * 100
    fake_probability := fake_probability
    flags := all_flags
    explanation := generate_explanation fake_probability text_score sentiment_score
      reviewer_score pattern_score all_flags }

/-- FakeReviewDetector.analyze_review (detector.py lines 22-66).  The or-0
defaulting of the two optional reviewer fields models the Python expressions
review.reviewer_total_reviews or 0 and review.reviewer_account_age_days or 0. -/
def analyze_review (env : NltkEnv) (now : Int) (review : ReviewInput) :
    Except String DetectionResult :=
  match extract_all_features env now review.text review.rating
      (review.reviewer_total_reviews.getD 0) (review.reviewer_account_age_days.getD 0)
      review.review_date with
  | .error e => .error e
  | .ok features => .ok (analyze_with_features review features)

/-- FakeReviewDetector.analyze_batch (detector.py lines 68-70): the list
comprehension evaluates analyze_review left to right and the first raised
exception propagates. -/
def analyze_batch (env : NltkEnv) (now : Int) : List ReviewInput → Except String (List DetectionResult)
  | [] => .ok []
  | r :: rest =>
    match analyze_review env now r with
    | .error e => .error e
    | .ok d =>
      match analyze_batch env now rest with
      | .error e => .error e
      | .ok ds => .ok (d :: ds)

/-- Summary record of the batch endpoint (routes.py lines 58-65); the two
wall-clock timing entries and the two-decimal rounding of the mean
confidence, being floating-point clock artifacts, are not modelled. -/
structure BatchSummary where
  total_reviews : Nat
  fake_reviews_detected : Nat
  fake_percentage : ℚ
  average_confidence : ℚ
deriving DecidableEq

/-- Summary computation of analyze_batch_reviews (routes.py lines 54-65).
For an empty result list the Python division sum(...) / total_reviews
raises ZeroDivisionError, modelled as the error branch. -/
def make_batch_summary (results : List DetectionResult) : Except String BatchSummary :=
  if results.length = 0 then .error "division by zero"
  else
    .ok { total_reviews := results.length
          fake_reviews_detected := results.countP (fun r => r.is_fake)
          fake_percentage := ((results.countP (fun r => r.is_fake) : ℚ) / (results.length : ℚ)) * 100
          average_confidence :=
            (results.map (fun r => r.confidence_score)).sum / (results.length : ℚ) }

/-- Response of a FastAPI route: either a payload or an HTTPException with
a status code and a detail string. -/
inductive RouteResponse (α : Type) where
  | ok : α → RouteResponse α
  | httpError : Nat → String → RouteResponse α
deriving DecidableEq

/-- BatchDetectionResult schema (app/models/review.py lines 27-30). -/
structure BatchDetectionResult where
  results : List DetectionResult
  summary : BatchSummary
deriving DecidableEq

/-- Route analyze_batch_reviews (routes.py lines 34-72): explicit 400 for
more than 100 reviews, otherwise run the batch; any exception other than an
HTTPException, including the ZeroDivisionError of the summary on an empty
batch, is caught and re-reported with status 500. -/
def analyze_batch_reviews (env : NltkEnv) (now : Int) (reviews : List ReviewInput) :
    RouteResponse BatchDetectionResult :=
  if 100 < reviews.length then
    .httpError 400 "Too many reviews. Maximum 100 reviews per batch."
  else
    match analyze_batch env now reviews with
    | .error e => .httpError 500 ("Batch analysis failed: " ++ e)
    | .ok results =>
      match make_batch_summary results with
      | .error e => .httpError 500 ("Batch analysis failed: " ++ e)
      | .ok summary => .ok ⟨results, summary⟩

/-- Validation constraints of the ReviewInput schema: text of length 1 to
5000 and rating 1 to 5 (review.py lines 7-8). -/
def review_input_valid (r : ReviewInput) : Prop :=
  1 ≤ r.text.length ∧ r.text.length ≤ 5000 ∧ 1 ≤ r.rating ∧ r.rating ≤ 5

instance (r : ReviewInput) : Decidable (review_input_valid r) := by
  unfold review_input_valid
  infer_instance

/-- Validation constraints of the BatchReviewInput schema: at most 100
items (max_items=100, review.py line 25) and each item a valid ReviewInput;
no minimum item count is imposed. -/
def batch_input_valid (reviews : List ReviewInput) : Prop :=
  reviews.length ≤ 100 ∧ ∀ r ∈ reviews, review_input_valid r

instance (reviews : List ReviewInput) : Decidable (batch_input_valid reviews) := by
  unfold batch_input_valid
  infer_instance

/-- Environment after FeatureExtractor.__init__ failed to obtain the NLTK
data: sia is None, tokenization falls back, the stopword set is empty. -/
def no_nltk_env : NltkEnv := ⟨none, none, []⟩

/-- Concrete environment with a working sentiment analyzer, used to
instantiate the opaque analyzer in witnesses: the deterministic fallback
scorer serves as the concrete scoring function. -/
def lexicon_env : NltkEnv := ⟨some simple_sentiment, none, []⟩

/-- Junk DetectionResult used only to unwrap Except values in witnesses. -/
def default_result : DetectionResult := ⟨false, 0, 0, [], ""⟩

/-- Unwraps an Except-valued detection result. -/
def resOf (e : Except String DetectionResult) : DetectionResult :=
  match e with
  | .ok r => r
  | .error _ => default_result

/-- Junk Features record used only to unwrap Except values in witnesses. -/
def default_features : Features :=
  ⟨0, 0, 0, 0, 0, 0, 0, 0, 0, 0, 0, 0, 0, 0, 0, false, 0, false, 0, false,
   0, 0, false, false, 0, none⟩

/-- Unwraps an Except-valued feature record. -/
def fsOf (e : Except String Features) : Features :=
  match e with
  | .ok f => f
  | .error _ => default_features

/-- Concrete review used by several witnesses. -/
def sample_review : ReviewInput := ⟨"ok product works", 4, none, none, none, some 10, some 100⟩

/-- Feature record extracted for the sample review. -/
def sample_fs : Features :=
  fsOf (extract_all_features lexicon_env 0 sample_review.text sample_review.rating
    (sample_review.reviewer_total_reviews.getD 0)
    (sample_review.reviewer_account_age_days.getD 0) sample_review.review_date)

/-- Detection result for the sample review. -/
def sample_res : DetectionResult := resOf (analyze_review lexicon_env 0 sample_review)

/-- Review text holding four distinct words of the ten-word positive
lexicon of _simple_sentiment but none of the five words of the
excessive-positive regex of check_fake_patterns. -/
def c4_text : String := "excellent wonderful fantastic perfect"

/-- Review input around c4_text. -/
def c4_review : ReviewInput := ⟨c4_text, 5, none, none, none, some 10, some 100⟩

/-- Feature record extracted for c4_review. -/
def c4_fs : Features :=
  fsOf (extract_all_features lexicon_env 0 c4_review.text c4_review.rating
    (c4_review.reviewer_total_reviews.getD 0)
    (c4_review.reviewer_account_age_days.getD 0) c4_review.review_date)

/-- Detection result for c4_review. -/
def c4_res : DetectionResult := resOf (analyze_review lexicon_env 0 c4_review)

/-- Review whose text matches the praise-word alternation five times. -/
def w4_review : ReviewInput :=
  ⟨"good good great nice awesome product", 4, none, none, none, some 10, some 100⟩

/-- Detection result for w4_review. -/
def w4_res : DetectionResult := resOf (analyze_review lexicon_env 0 w4_review)

/-- Concrete one-element batch for the C5 witness. -/
def c5_reviews : List ReviewInput :=
  [⟨"works fine", 3, none, none, none, some 2, some 40⟩]

/-- Batch results for c5_reviews. -/
def c5_results : List DetectionResult :=
  match analyze_batch lexicon_env 0 c5_reviews with
  | .ok rs => rs
  | .error _ => []

/-- First review of the C6 witness pair. -/
def c6_r1 : ReviewInput :=
  ⟨"nice quality", 4, some "alice", some "prod1", none, some 3, some 50⟩

/-- Second review of the C6 witness pair: same analyzed fields, different
reviewer and product identifiers. -/
def c6_r2 : ReviewInput :=
  ⟨"nice quality", 4, some "bob", some "prod2", none, some 3, some 50⟩

/-- First review of the C9 witness pair, dated day 100 at hour 10. -/
def c9_r1 : ReviewInput :=
  ⟨"solid item", 4, none, none, some ⟨100, 10, 2⟩, some 3, some 50⟩

/-- Second review of the C9 witness pair, dated day 200 at hour 23. -/
def c9_r2 : ReviewInput :=
  ⟨"solid item", 4, none, none, some ⟨200, 23, 6⟩, some 3, some 50⟩

/-! ### Helper lemmas -/

/-- Inversion of analyze_review: a successful analysis is exactly a
successful feature extraction followed by analyze_with_features. -/
theorem analyze_review_ok_iff (env : NltkEnv) (now : Int) (review : ReviewInput)
    (res : DetectionResult) :
    analyze_review env now review = .ok res ↔
      ∃ fs, extract_all_features env now review.text review.rating
          (review.reviewer_total_reviews.getD 0) (review.reviewer_account_age_days.getD 0)
          review.review_date = .ok fs ∧ res = analyze_with_features review fs := by
  unfold analyze_review
  cases hE : extract_all_features env now review.text review.rating
      (review.reviewer_total_reviews.getD 0) (review.reviewer_account_age_days.getD 0)
      review.review_date with
  | error e => simp
  | ok fs => simp [eq_comm]

/-- The text-quality sub-score lies in the unit interval. -/
theorem text_quality_score_bounds (f : Features) :
    0 ≤ calculate_text_quality_score f ∧ calculate_text_quality_score f ≤ 1 := by
  unfold calculate_text_quality_score
  refine ⟨le_min ?_ zero_le_one, min_le_right _ _⟩
  split_ifs <;> norm_num

/-- The sentiment sub-score lies in the unit interval. -/
theorem sentiment_score_bounds (f : Features) :
    0 ≤ calculate_sentiment_score f ∧ calculate_sentiment_score f ≤ 1 := by
  unfold calculate_sentiment_score
  refine ⟨le_min ?_ zero_le_one, min_le_right _ _⟩
  split_ifs <;> norm_num

/-- The reviewer-behavior sub-score lies in the unit interval. -/
theorem reviewer_score_bounds (f : Features) :
    0 ≤ calculate_reviewer_behavior_score f ∧ calculate_reviewer_behavior_score f ≤ 1 := by
  unfold calculate_reviewer_behavior_score
  refine ⟨le_min ?_ zero_le_one, min_le_right _ _⟩
  split_ifs <;> norm_num

/-- The pattern sub-score lies in the unit interval. -/
theorem pattern_score_bounds (pattern_flags : List String) (f : Features) :
    0 ≤ calculate_pattern_score pattern_flags f ∧ calculate_pattern_score pattern_flags f ≤ 1 := by
  unfold calculate_pattern_score
  refine ⟨le_min ?_ zero_le_one, min_le_right _ _⟩
  have h0 : (0:ℚ) ≤ (pattern_flags.length : ℚ) * 0.2 := by positivity
  split_ifs <;> linarith

/-! ### Claims -/

/-- C1: the claim asserts that with the sentiment lexicon unavailable at
initialization (sia = None) every feature degrades to the deterministic
fallback and no error propagates out of the Detector.  The code violates
this: _extract_rating_features calls self.sia.polarity_scores with no
guard, so for every review the AttributeError escapes analyze_review. -/
theorem c1_sia_none_always_raises (now : Int) (review : ReviewInput) :
    analyze_review no_nltk_env now review =
      .error "AttributeError: NoneType object has no attribute polarity_scores" := rfl

/-- C2: every successful analysis of a well-formed review yields a
fake_probability in the unit interval and a confidence_score equal to
fake_probability times 100 exactly. -/
theorem c2_fake_probability_bounds (env : NltkEnv) (now : Int) (review : ReviewInput)
    (res : DetectionResult) (_hwf : review_input_valid review)
    (h : analyze_review env now review = .ok res) :
    0 ≤ res.fake_probability ∧ res.fake_probability ≤ 1 ∧
      res.confidence_score = res.fake_probability * 100 := by
  obtain ⟨fs, hE, hres⟩ := (analyze_review_ok_iff env now review res).mp h
  subst hres
  obtain ⟨ht0, ht1⟩ := text_quality_score_bounds fs
  obtain ⟨hs0, hs1⟩ := sentiment_score_bounds fs
  obtain ⟨hr0, hr1⟩ := reviewer_score_bounds fs
  obtain ⟨hp0, hp1⟩ := pattern_score_bounds (check_fake_patterns review.text) fs
  have hfp : (analyze_with_features review fs).fake_probability =
      weight_text_quality * calculate_text_quality_score fs +
      weight_sentiment_analysis * calculate_sentiment_score fs +
      weight_reviewer_behavior * calculate_reviewer_behavior_score fs +
      weight_pattern_matching * calculate_pattern_score (check_fake_patterns review.text) fs := rfl
  refine ⟨?_, ?_, rfl⟩
  · rw [hfp]
    unfold weight_text_quality weight_sentiment_analysis weight_reviewer_behavior
      weight_pattern_matching
    linarith
  · rw [hfp]
    unfold weight_text_quality weight_sentiment_analysis weight_reviewer_behavior
      weight_pattern_matching
    linarith

/-- Witness for C2 at a concrete review and environment. -/
theorem c2_witness :
    0 ≤ sample_res.fake_probability ∧ sample_res.fake_probability ≤ 1 ∧
      sample_res.confidence_score = sample_res.fake_probability * 100 :=
  c2_fake_probability_bounds lexicon_env 0 sample_review sample_res (by decide) rfl

/-- C3: every successful analysis of a well-formed review has
fake_probability equal to the fixed weighted sum of the four sub-scores,
each sub-score lying in the unit interval, and is_fake holds exactly when
fake_probability strictly exceeds 0.6. -/
theorem c3_weighted_sum_and_threshold (env : NltkEnv) (now : Int) (review : ReviewInput)
    (fs : Features) (res : DetectionResult) (_hwf : review_input_valid review)
    (hE : extract_all_features env now review.text review.rating
      (review.reviewer_total_reviews.getD 0) (review.reviewer_account_age_days.getD 0)
      review.review_date = .ok fs)
    (h : analyze_review env now review = .ok res) :
    res.fake_probability =
      0.25 * calculate_text_quality_score fs + 0.20 * calculate_sentiment_score fs +
      0.25 * calculate_reviewer_behavior_score fs +
      0.30 * calculate_pattern_score (check_fake_patterns review.text) fs ∧
    (0 ≤ calculate_text_quality_score fs ∧ calculate_text_quality_score fs ≤ 1) ∧
    (0 ≤ calculate_sentiment_score fs ∧ calculate_sentiment_score fs ≤ 1) ∧
    (0 ≤ calculate_reviewer_behavior_score fs ∧ calculate_reviewer_behavior_score fs ≤ 1) ∧
    (0 ≤ calculate_pattern_score (check_fake_patterns review.text) fs ∧
      calculate_pattern_score (check_fake_patterns review.text) fs ≤ 1) ∧
    (res.is_fake = true ↔ res.fake_probability > 0.6) := by
  obtain ⟨fs2, hE2, hres⟩ := (analyze_review_ok_iff env now review res).mp h
  rw [hE] at hE2
  injection hE2 with hfs
  subst hfs
  subst hres
  refine ⟨rfl, text_quality_score_bounds fs, sentiment_score_bounds fs,
    reviewer_score_bounds fs, pattern_score_bounds (check_fake_patterns review.text) fs, ?_⟩
  exact decide_eq_true_iff

/-- Witness for C3 at a concrete review and environment. -/
theorem c3_witness :
    sample_res.fake_probability =
      0.25 * calculate_text_quality_score sample_fs +
      0.20 * calculate_sentiment_score sample_fs +
      0.25 * calculate_reviewer_behavior_score sample_fs +
      0.30 * calculate_pattern_score (check_fake_patterns sample_review.text) sample_fs ∧
    (0 ≤ calculate_text_quality_score sample_fs ∧ calculate_text_quality_score sample_fs ≤ 1) ∧
    (0 ≤ calculate_sentiment_score sample_fs ∧ calculate_sentiment_score sample_fs ≤ 1) ∧
    (0 ≤ calculate_reviewer_behavior_score sample_fs ∧
      calculate_reviewer_behavior_score sample_fs ≤ 1) ∧
    (0 ≤ calculate_pattern_score (check_fake_patterns sample_review.text) sample_fs ∧
      calculate_pattern_score (check_fake_patterns sample_review.text) sample_fs ≤ 1) ∧
    (sample_res.is_fake = true ↔ sample_res.fake_probability > 0.6) :=
  c3_weighted_sum_and_threshold lexicon_env 0 sample_review sample_fs sample_res
    (by decide) rfl rfl

/-- Membership in a conditional singleton list. -/
theorem mem_ite_singleton {c : Prop} [Decidable c] {a x : String} :
    x ∈ (if c then [a] else []) ↔ c ∧ x = a := by
  split_ifs with h <;> simp [h]

/-- Every tag produced by check_fake_patterns is one of the eight fixed
pattern tags. -/
theorem check_fake_patterns_tags (text : String) (x : String)
    (hx : x ∈ check_fake_patterns text) :
    x = "fake_pattern_1" ∨ x = "fake_pattern_2" ∨ x = "fake_pattern_3" ∨ x = "fake_pattern_4" ∨
    x = "excessive_positive_words" ∨ x = "excessive_exclamation" ∨
    x = "too_short" ∨ x = "too_long" := by
  unfold check_fake_patterns at hx
  simp only [List.mem_append, mem_ite_singleton] at hx
  tauto

/-- A string other than the eight pattern tags never appears among the
pattern flags. -/
theorem not_in_check_fake_patterns (text : String) (x : String)
    (hx : ¬ (x = "fake_pattern_1" ∨ x = "fake_pattern_2" ∨ x = "fake_pattern_3" ∨
      x = "fake_pattern_4" ∨ x = "excessive_positive_words" ∨ x = "excessive_exclamation" ∨
      x = "too_short" ∨ x = "too_long")) : x ∉ check_fake_patterns text :=
  fun h => hx (check_fake_patterns_tags text x h)

/-- Characterization of membership in the behavior flags. -/
theorem mem_behavior_flags_iff (fs : Features) (x : String) :
    x ∈ get_behavior_flags fs ↔
      (fs.is_new_reviewer = true ∧ x = "new_account") ∨
      (fs.reviews_per_day > 2 ∧ x = "high_review_frequency") ∨
      (fs.high_mismatch = true ∧ x = "sentiment_rating_mismatch") ∨
      (fs.is_extreme_sentiment = true ∧ x = "extreme_sentiment") ∨
      (fs.capitalization_frac > 0.15 ∧ x = "excessive_caps") ∨
      (fs.text_length < 20 ∧ x = "very_short_text") := by
  unfold get_behavior_flags
  simp only [List.mem_append, mem_ite_singleton]
  tauto

/-- C4 counterexample: the review text contains at least four distinct
words of the positive lexicon (good, great, excellent, amazing, wonderful,
fantastic, perfect, love, best, awesome), the analysis succeeds, and yet
the excessive_positive_words flag is absent, because the code instead
counts occurrences of the five regex words great, good, nice, awesome,
amazing and requires strictly more than three matches. -/
theorem c4_counterexample :
    4 ≤ (positive_words.filter (fun w => containsSub w (lowerList c4_text.data))).length ∧
    analyze_review lexicon_env 0 c4_review = .ok c4_res ∧
    "excessive_positive_words" ∉ c4_res.flags := by
  refine ⟨by decide, rfl, ?_⟩
  intro hmem
  have hflags : c4_res.flags = check_fake_patterns c4_review.text ++ get_behavior_flags c4_fs := rfl
  rw [hflags] at hmem
  rcases List.mem_append.mp hmem with hm | hm
  · have : "excessive_positive_words" ∉ check_fake_patterns c4_review.text := by decide
    exact this hm
  · rcases (mem_behavior_flags_iff c4_fs _).mp hm with
      ⟨_, he⟩ | ⟨_, he⟩ | ⟨_, he⟩ | ⟨_, he⟩ | ⟨_, he⟩ | ⟨_, he⟩ <;>
      exact absurd he (by decide)

/-- C4 amended: for every review whose lowered text matches the word
alternation great, good, nice, awesome, amazing (with word boundaries)
strictly more than three times in total, a successful analysis carries the
excessive_positive_words flag. -/
theorem c4_praise_matches_flag (env : NltkEnv) (now : Int) (review : ReviewInput)
    (res : DetectionResult)
    (h : analyze_review env now review = .ok res)
    (hcount : 3 < word_match_count praise_words (lowerList review.text.data)) :
    "excessive_positive_words" ∈ res.flags := by
  obtain ⟨fs, hE, hres⟩ := (analyze_review_ok_iff env now review res).mp h
  subst hres
  show "excessive_positive_words" ∈ check_fake_patterns review.text ++ get_behavior_flags fs
  apply List.mem_append_left
  unfold check_fake_patterns
  simp only [List.mem_append, mem_ite_singleton]
  tauto

/-- Witness for the amended C4 at a concrete review. -/
theorem c4_witness :
    3 < word_match_count praise_words (lowerList w4_review.text.data) ∧
    "excessive_positive_words" ∈ w4_res.flags :=
  ⟨by decide, c4_praise_matches_flag lexicon_env 0 w4_review w4_res rfl (by decide)⟩

/-- C8: the flags of a successful analysis are the pattern flags in
extractor order followed by the six behavior flags in their fixed order,
and each behavior tag is present exactly when its condition holds. -/
theorem c8_flags_order_and_conditions (env : NltkEnv) (now : Int) (review : ReviewInput)
    (fs : Features) (res : DetectionResult) (_hwf : review_input_valid review)
    (hE : extract_all_features env now review.text review.rating
      (review.reviewer_total_reviews.getD 0) (review.reviewer_account_age_days.getD 0)
      review.review_date = .ok fs)
    (h : analyze_review env now review = .ok res) :
    res.flags = check_fake_patterns review.text ++
      ((if fs.is_new_reviewer then ["new_account"] else []) ++
       (if fs.reviews_per_day > 2 then ["high_review_frequency"] else []) ++
       (if fs.high_mismatch then ["sentiment_rating_mismatch"] else []) ++
       (if fs.is_extreme_sentiment then ["extreme_sentiment"] else []) ++
       (if fs.capitalization_frac > 0.15 then ["excessive_caps"] else []) ++
       (if fs.text_length < 20 then ["very_short_text"] else [])) ∧
    ("new_account" ∈ res.flags ↔ fs.is_new_reviewer = true) ∧
    ("high_review_frequency" ∈ res.flags ↔ fs.reviews_per_day > 2) ∧
    ("sentiment_rating_mismatch" ∈ res.flags ↔ fs.high_mismatch = true) ∧
    ("extreme_sentiment" ∈ res.flags ↔ fs.is_extreme_sentiment = true) ∧
    ("excessive_caps" ∈ res.flags ↔ fs.capitalization_frac > 0.15) ∧
    ("very_short_text" ∈ res.flags ↔ fs.text_length < 20) := by
  obtain ⟨fs2, hE2, hres⟩ := (analyze_review_ok_iff env now review res).mp h
  rw [hE] at hE2
  injection hE2 with hfs
  subst hfs
  subst hres
  have hfl : (analyze_with_features review fs).flags =
      check_fake_patterns review.text ++ get_behavior_flags fs := rfl
  refine ⟨rfl, ?_, ?_, ?_, ?_, ?_, ?_⟩ <;>
    rw [hfl] <;>
    simp only [List.mem_append, mem_behavior_flags_iff]
  · have hni : "new_account" ∉ check_fake_patterns review.text :=
      not_in_check_fake_patterns _ _ (by decide)
    simp [hni]
  · have hni : "high_review_frequency" ∉ check_fake_patterns review.text :=
      not_in_check_fake_patterns _ _ (by decide)
    simp [hni]
  · have hni : "sentiment_rating_mismatch" ∉ check_fake_patterns review.text :=
      not_in_check_fake_patterns _ _ (by decide)
    simp [hni]
  · have hni : "extreme_sentiment" ∉ check_fake_patterns review.text :=
      not_in_check_fake_patterns _ _ (by decide)
    simp [hni]
  · have hni : "excessive_caps" ∉ check_fake_patterns review.text :=
      not_in_check_fake_patterns _ _ (by decide)
    simp [hni]
  · have hni : "very_short_text" ∉ check_fake_patterns review.text :=
      not_in_check_fake_patterns _ _ (by decide)
    simp [hni]

/-- Witness for C8 at a concrete review and environment. -/
theorem c8_witness :
    sample_res.flags = check_fake_patterns sample_review.text ++
      ((if sample_fs.is_new_reviewer then ["new_account"] else []) ++
       (if sample_fs.reviews_per_day > 2 then ["high_review_frequency"] else []) ++
       (if sample_fs.high_mismatch then ["sentiment_rating_mismatch"] else []) ++
       (if sample_fs.is_extreme_sentiment then ["extreme_sentiment"] else []) ++
       (if sample_fs.capitalization_frac > 0.15 then ["excessive_caps"] else []) ++
       (if sample_fs.text_length < 20 then ["very_short_text"] else [])) ∧
    ("new_account" ∈ sample_res.flags ↔ sample_fs.is_new_reviewer = true) ∧
    ("high_review_frequency" ∈ sample_res.flags ↔ sample_fs.reviews_per_day > 2) ∧
    ("sentiment_rating_mismatch" ∈ sample_res.flags ↔ sample_fs.high_mismatch = true) ∧
    ("extreme_sentiment" ∈ sample_res.flags ↔ sample_fs.is_extreme_sentiment = true) ∧
    ("excessive_caps" ∈ sample_res.flags ↔ sample_fs.capitalization_frac > 0.15) ∧
    ("very_short_text" ∈ sample_res.flags ↔ sample_fs.text_length < 20) :=
  c8_flags_order_and_conditions lexicon_env 0 sample_review sample_fs sample_res
    (by decide) rfl rfl

/-- A successful batch run has one result per input, in order, each equal
to the single analysis of the corresponding input. -/
theorem analyze_batch_spec (env : NltkEnv) (now : Int) (reviews : List ReviewInput) :
    ∀ results, analyze_batch env now reviews = .ok results →
      results.length = reviews.length ∧
      ∀ i (h1 : i < reviews.length) (h2 : i < results.length),
        analyze_review env now (reviews.get ⟨i, h1⟩) = .ok (results.get ⟨i, h2⟩) := by
  induction reviews with
  | nil =>
    intro results h
    simp [analyze_batch] at h
    subst h
    exact ⟨rfl, fun i h1 _ => absurd h1 (Nat.not_lt_zero i)⟩
  | cons r rest ih =>
    intro results h
    unfold analyze_batch at h
    cases hr : analyze_review env now r with
    | error e => rw [hr] at h; simp at h
    | ok d =>
      rw [hr] at h
      cases hb : analyze_batch env now rest with
      | error e => rw [hb] at h; simp at h
      | ok ds =>
        rw [hb] at h
        simp only [Except.ok.injEq] at h
        subst h
        obtain ⟨hlen, hget⟩ := ih ds hb
        refine ⟨by simp [hlen], ?_⟩
        intro i h1 h2
        cases i with
        | zero => simpa using hr
        | succ j =>
          have h1j : j < rest.length := by simpa using h1
          have h2j : j < ds.length := by simpa using h2
          simpa using hget j h1j h2j

/-- C5: a successful batch of well-formed reviews yields a result list of
the same length and order, whose entries are the single analyses of the
corresponding inputs, and the batch summary, when defined, reports
fake_percentage equal to 100 times the fake count over the total count. -/
theorem c5_batch_pointwise_and_summary (env : NltkEnv) (now : Int)
    (reviews : List ReviewInput) (results : List DetectionResult)
    (_hwf : ∀ r ∈ reviews, review_input_valid r)
    (h : analyze_batch env now reviews = .ok results) :
    results.length = reviews.length ∧
    (∀ i (h1 : i < reviews.length) (h2 : i < results.length),
      analyze_review env now (reviews.get ⟨i, h1⟩) = .ok (results.get ⟨i, h2⟩)) ∧
    (∀ s, make_batch_summary results = .ok s →
      s.fake_percentage =
        100 * ((results.countP (fun r => r.is_fake) : ℚ)) / (results.length : ℚ)) := by
  obtain ⟨hlen, hget⟩ := analyze_batch_spec env now reviews results h
  refine ⟨hlen, hget, ?_⟩
  intro s hs
  unfold make_batch_summary at hs
  by_cases h0 : results.length = 0
  · rw [if_pos h0] at hs
    exact Except.noConfusion hs
  · rw [if_neg h0] at hs
    simp only [Except.ok.injEq] at hs
    rw [← hs]
    show ((results.countP (fun r => r.is_fake) : ℚ) / (results.length : ℚ)) * 100 =
      100 * ((results.countP (fun r => r.is_fake) : ℚ)) / (results.length : ℚ)
    ring

/-- Witness for C5 at a concrete batch. -/
theorem c5_witness :
    c5_results.length = c5_reviews.length ∧
    (∀ i (h1 : i < c5_reviews.length) (h2 : i < c5_results.length),
      analyze_review lexicon_env 0 (c5_reviews.get ⟨i, h1⟩) = .ok (c5_results.get ⟨i, h2⟩)) ∧
    (∀ s, make_batch_summary c5_results = .ok s →
      s.fake_percentage =
        100 * ((c5_results.countP (fun r => r.is_fake) : ℚ)) / (c5_results.length : ℚ)) :=
  c5_batch_pointwise_and_summary lexicon_env 0 c5_reviews c5_results (by decide) rfl

/-- C6: analyzing two reviews that agree on text, rating, review date and
the two reviewer metadata fields yields identical results, for any
environment and clock; the detector reads no other input field and keeps
no mutable state. -/
theorem c6_identical_inputs_identical_results (env : NltkEnv) (now : Int)
    (r1 r2 : ReviewInput) (htext : r1.text = r2.text) (hrating : r1.rating = r2.rating)
    (hdate : r1.review_date = r2.review_date)
    (htot : r1.reviewer_total_reviews = r2.reviewer_total_reviews)
    (hage : r1.reviewer_account_age_days = r2.reviewer_account_age_days) :
    analyze_review env now r1 = analyze_review env now r2 := by
  obtain ⟨t1, ra1, i1, p1, d1, tr1, ag1⟩ := r1
  obtain ⟨t2, ra2, i2, p2, d2, tr2, ag2⟩ := r2
  dsimp only at htext hrating hdate htot hage
  subst htext; subst hrating; subst hdate; subst htot; subst hage
  obtain ⟨sia, tok, stops⟩ := env
  cases sia <;> rfl

/-- Witness for C6 at a concrete pair of reviews. -/
theorem c6_witness : analyze_review lexicon_env 0 c6_r1 = analyze_review lexicon_env 0 c6_r2 :=
  c6_identical_inputs_identical_results lexicon_env 0 c6_r1 c6_r2 rfl rfl rfl rfl rfl

/-- C9: the result is independent of the optional review date and of the
clock, for any two reviews agreeing on every other field; moreover the
temporal features are computed and stored whenever a date is supplied. -/
theorem c9_review_date_ignored (env : NltkEnv) (now1 now2 : Int) (r1 r2 : ReviewInput)
    (htext : r1.text = r2.text) (hrating : r1.rating = r2.rating)
    (hid : r1.reviewer_id = r2.reviewer_id) (hpid : r1.product_id = r2.product_id)
    (htot : r1.reviewer_total_reviews = r2.reviewer_total_reviews)
    (hage : r1.reviewer_account_age_days = r2.reviewer_account_age_days) :
    analyze_review env now1 r1 = analyze_review env now2 r2 ∧
    ∀ d fs, extract_all_features env now1 r1.text r1.rating
        (r1.reviewer_total_reviews.getD 0) (r1.reviewer_account_age_days.getD 0)
        (some d) = .ok fs →
      fs.temporal = some (extract_temporal_features now1 d) := by
  constructor
  · obtain ⟨t1, ra1, i1, p1, d1, tr1, ag1⟩ := r1
    obtain ⟨t2, ra2, i2, p2, d2, tr2, ag2⟩ := r2
    dsimp only at htext hrating hid hpid htot hage
    subst htext; subst hrating; subst hid; subst hpid; subst htot; subst hage
    obtain ⟨sia, tok, stops⟩ := env
    cases sia <;> rfl
  · intro d fs hE
    cases hs : env.sia with
    | none =>
      simp only [extract_all_features, extract_rating_features, hs] at hE
      exact Except.noConfusion hE
    | some f =>
      simp only [extract_all_features, extract_rating_features, hs,
        Except.ok.injEq] at hE
      subst hE
      rfl

/-- Witness for C9 at a concrete pair of reviews and clocks. -/
theorem c9_witness :
    analyze_review lexicon_env 5 c9_r1 = analyze_review lexicon_env 99 c9_r2 ∧
    ∀ d fs, extract_all_features lexicon_env 5 c9_r1.text c9_r1.rating
        (c9_r1.reviewer_total_reviews.getD 0) (c9_r1.reviewer_account_age_days.getD 0)
        (some d) = .ok fs →
      fs.temporal = some (extract_temporal_features 5 d) :=
  c9_review_date_ignored lexicon_env 5 99 c9_r1 c9_r2 rfl rfl rfl rfl rfl rfl

/-- C10: the empty batch passes schema validation, since the schema caps
the list at 100 items and imposes no minimum, and the endpoint then fails
with a 500 server error because the summary divides by the zero count. -/
theorem c10_empty_batch_server_error :
    batch_input_valid ([] : List ReviewInput) ∧
    ∀ env now, analyze_batch_reviews env now [] =
      .httpError 500 "Batch analysis failed: division by zero" := by
  constructor
  · exact ⟨by norm_num, by simp⟩
  · intro env now
    rfl

/-- C7: the fallback sentiment function is deterministic and satisfies the
stated formulas: the all-zero-counts case returns the neutral record, the
other case returns the clamped compound, pos, neg and neu values, and all
four outputs lie in their declared ranges. -/
theorem c7_simple_sentiment_spec (text : String) :
    (pos_word_count (lowerList text.data) + neg_word_count (lowerList text.data) = 0 →
      simple_sentiment text = ⟨0, 0, 0, 1⟩) ∧
    (pos_word_count (lowerList text.data) + neg_word_count (lowerList text.data) ≠ 0 →
      (simple_sentiment text).compound =
        max (-1) (min 1
          (((pos_word_count (lowerList text.data) : ℚ) -
            (neg_word_count (lowerList text.data) : ℚ)) /
           ((pos_word_count (lowerList text.data) : ℚ) +
            (neg_word_count (lowerList text.data) : ℚ)))) ∧
      (simple_sentiment text).pos =
        max 0 (min 1 ((pos_word_count (lowerList text.data) : ℚ) /
          ((splitWs (lowerList text.data)).length : ℚ) * 3)) ∧
      (simple_sentiment text).neg =
        max 0 (min 1 ((neg_word_count (lowerList text.data) : ℚ) /
          ((splitWs (lowerList text.data)).length : ℚ) * 3)) ∧
      (simple_sentiment text).neu =
        max 0 (min 1 (1 - (simple_sentiment text).pos - (simple_sentiment text).neg))) ∧
    (-1 ≤ (simple_sentiment text).compound ∧ (simple_sentiment text).compound ≤ 1 ∧
      0 ≤ (simple_sentiment text).pos ∧ (simple_sentiment text).pos ≤ 1 ∧
      0 ≤ (simple_sentiment text).neg ∧ (simple_sentiment text).neg ≤ 1 ∧
      0 ≤ (simple_sentiment text).neu ∧ (simple_sentiment text).neu ≤ 1) := by
  have hss : simple_sentiment text =
      (if pos_word_count (lowerList text.data) + neg_word_count (lowerList text.data) = 0 then
        (⟨0, 0, 0, 1⟩ : Sentiment)
      else
        ⟨max (-1) (min 1
            (((pos_word_count (lowerList text.data) : ℚ) -
              (neg_word_count (lowerList text.data) : ℚ)) /
             ((max (pos_word_count (lowerList text.data) +
                neg_word_count (lowerList text.data)) 1 : ℕ) : ℚ))),
         min 1 ((pos_word_count (lowerList text.data) : ℚ) /
            ((splitWs (lowerList text.data)).length : ℚ) * 3),
         min 1 ((neg_word_count (lowerList text.data) : ℚ) /
            ((splitWs (lowerList text.data)).length : ℚ) * 3),
         max 0 (1 -
          (pos_word_count (lowerList text.data) : ℚ) /
            ((splitWs (lowerList text.data)).length : ℚ) * 3 -
          (neg_word_count (lowerList text.data) : ℚ) /
            ((splitWs (lowerList text.data)).length : ℚ) * 3)⟩) := rfl
  by_cases h0 : pos_word_count (lowerList text.data) + neg_word_count (lowerList text.data) = 0
  · rw [hss, if_pos h0]
    exact ⟨fun _ => rfl, fun hne => absurd h0 hne, by norm_num⟩
  · rw [hss, if_neg h0]
    set pc : ℕ := pos_word_count (lowerList text.data) with hpc
    set nc : ℕ := neg_word_count (lowerList text.data) with hnc
    set wq : ℚ := ((splitWs (lowerList text.data)).length : ℚ) with hwq
    have hwq0 : 0 ≤ wq := by rw [hwq]; exact Nat.cast_nonneg _
    have hp3 : 0 ≤ (pc : ℚ) / wq * 3 :=
      mul_nonneg (div_nonneg (Nat.cast_nonneg pc) hwq0) (by norm_num)
    have hn3 : 0 ≤ (nc : ℚ) / wq * 3 :=
      mul_nonneg (div_nonneg (Nat.cast_nonneg nc) hwq0) (by norm_num)
    have hmax : (max (pc + nc) 1 : ℕ) = pc + nc :=
      Nat.max_eq_left (Nat.one_le_iff_ne_zero.mpr h0)
    have hminp : (0:ℚ) ≤ min 1 ((pc : ℚ) / wq * 3) := le_min zero_le_one hp3
    have hminn : (0:ℚ) ≤ min 1 ((nc : ℚ) / wq * 3) := le_min zero_le_one hn3
    refine ⟨fun h => absurd h h0, fun _ => ⟨?_, ?_, ?_, ?_⟩,
      le_max_left _ _, max_le (by norm_num) (min_le_left _ _),
      hminp, min_le_left _ _, hminn, min_le_left _ _,
      le_max_left _ _, max_le zero_le_one (by linarith)⟩
    · rw [hmax]
      push_cast
      rfl
    · exact (max_eq_right hminp).symm
    · exact (max_eq_right hminn).symm
    · show max 0 (1 - (pc : ℚ) / wq * 3 - (nc : ℚ) / wq * 3) =
        max 0 (min 1 (1 - min 1 ((pc : ℚ) / wq * 3) - min 1 ((nc : ℚ) / wq * 3)))
      have hle : 1 - min 1 ((pc : ℚ) / wq * 3) - min 1 ((nc : ℚ) / wq * 3) ≤ 1 := by linarith
      rw [min_eq_right hle]
      rcases le_total ((pc : ℚ) / wq * 3) 1 with ha | ha <;>
        rcases le_total ((nc : ℚ) / wq * 3) 1 with hb | hb
      · rw [min_eq_right ha, min_eq_right hb]
      · rw [min_eq_right ha, min_eq_left hb,
          max_eq_left (by linarith : 1 - (pc : ℚ) / wq * 3 - (nc : ℚ) / wq * 3 ≤ 0),
          max_eq_left (by linarith : 1 - (pc : ℚ) / wq * 3 - 1 ≤ 0)]
      · rw [min_eq_left ha, min_eq_right hb,
          max_eq_left (by linarith : 1 - (pc : ℚ) / wq * 3 - (nc : ℚ) / wq * 3 ≤ 0),
          max_eq_left (by linarith : 1 - 1 - (nc : ℚ) / wq * 3 ≤ 0)]
      · rw [min_eq_left ha, min_eq_left hb,
          max_eq_left (by linarith : 1 - (pc : ℚ) / wq * 3 - (nc : ℚ) / wq * 3 ≤ 0),
          max_eq_left (by linarith : 1 - 1 - (1 : ℚ) ≤ 0)]

/-- Witness for C7: a text containing no lexicon word maps to the neutral
sentiment record. -/
theorem c7_witness : simple_sentiment "meh" = ⟨0, 0, 0, 1⟩ :=
  (c7_simple_sentiment_spec "meh").1 (by decide)
